import Mathlib

/-
Verification of the rsplay runtime-checked interior-mutability library
(src/cell.rs, src/ref_cell.rs, src/refs.rs, src/unsafe_cell.rs).

Machine integers (usize) are modelled as Nat with arithmetic taken
modulo 2^64 where the Rust source performs unchecked `+`/`-` on usize,
matching wraparound (release-profile) semantics.  A guard release that
hits the `unreachable!` branch of a Drop impl is modelled as `none`.
-/

namespace Rsplay

/-- The number of values of a 64-bit usize, 2^64. -/
def USIZE : Nat := 18446744073709551616

/-- Borrow state of a tracker, from `pub enum State` in src/refs.rs. -/
inductive State where
  | Unused : State
  | HasReaders : Nat → State
  | HasWriter : State
deriving DecidableEq

/-- Model of the raw cell in src/unsafe_cell.rs (named `UnsafeCell` there):
a plain wrapper around a value; `get` models reading through the raw
pointer the source's `get` returns. -/
structure RawCell (T : Type) where
  value : T
deriving DecidableEq

/-- RawCell::new from src/unsafe_cell.rs. -/
def RawCell.new {T : Type} (value : T) : RawCell T :=
  RawCell.mk value

/-- RawCell::into_inner from src/unsafe_cell.rs. -/
def RawCell.into_inner {T : Type} (c : RawCell T) : T :=
  c.value

/-- Reading the value through the pointer returned by the source's `get`. -/
def RawCell.get {T : Type} (c : RawCell T) : T :=
  c.value

/-- Cell<T> from src/cell.rs: `value: UnsafeCell<T>`. -/
structure Cell (T : Type) where
  value : RawCell T
deriving DecidableEq

/-- Cell::new from src/cell.rs. -/
def Cell.new {T : Type} (value : T) : Cell T :=
  Cell.mk (RawCell.new value)

/-- Cell::set from src/cell.rs: unconditional overwrite. -/
def Cell.set {T : Type} (_c : Cell T) (value : T) : Cell T :=
  Cell.mk (RawCell.new value)

/-- Cell::get from src/cell.rs: returns a copy of the contents. -/
def Cell.get {T : Type} (c : Cell T) : T :=
  RawCell.get c.value

/-- Cell::replace from src/cell.rs: swap in `val`, return the old value.
The pair is (returned old value, cell contents afterwards). -/
def Cell.replace {T : Type} (c : Cell T) (val : T) : T × Cell T :=
  (RawCell.get c.value, Cell.mk (RawCell.new val))

/-- Cell::take from src/cell.rs: `self.replace(Default::default())`. -/
def Cell.take {T : Type} [Inhabited T] (c : Cell T) : T × Cell T :=
  Cell.replace c default

/-- Cell::into_inner from src/cell.rs. -/
def Cell.into_inner {T : Type} (c : Cell T) : T :=
  RawCell.into_inner c.value

/-- BorrowError from src/ref_cell.rs. -/
inductive BorrowError where
  | mk : BorrowError
deriving DecidableEq

/-- BorrowMutError from src/ref_cell.rs. -/
inductive BorrowMutError where
  | mk : BorrowMutError
deriving DecidableEq

/-- The read guard Ref<'cell, T> of src/refs.rs, modelled by the value view
its Deref impl exposes; its effect on the state cell at drop time is
`Ref.drop` below. -/
structure Ref (T : Type) where
  value : T
deriving DecidableEq

/-- Ref::new from src/refs.rs (the state back-reference is modelled by
using `Ref.drop` on the tracker's state at release time). -/
def Ref.new {T : Type} (value : T) : Ref T :=
  Ref.mk value

/-- The write guard RefMut<'cell, T> of src/refs.rs, modelled like `Ref`. -/
structure RefMut (T : Type) where
  value : T
deriving DecidableEq

/-- RefMut::new from src/refs.rs. -/
def RefMut.new {T : Type} (value : T) : RefMut T :=
  RefMut.mk value

/-- Effect of `impl Drop for Ref` (src/refs.rs lines 23-36) on the state:
if the state is HasReaders(n), set Unused when n == 1 and otherwise
HasReaders(n - 1) with usize wraparound (n = 0 wraps to 2^64 - 1);
any other state hits `unreachable!`, modelled as `none`. -/
def Ref.drop (s : State) : Option State :=
  match s with
  | State.HasReaders n =>
      if n = 1 then some State.Unused
      else some (State.HasReaders ((n + USIZE - 1) % USIZE))
  | _ => none

/-- Effect of `impl Drop for RefMut` (src/refs.rs lines 75-84) on the state:
HasWriter resets to Unused; any other state hits `unreachable!` (`none`). -/
def RefMut.drop (s : State) : Option State :=
  match s with
  | State.HasWriter => some State.Unused
  | _ => none

/-- RefCell<T> from src/ref_cell.rs: `value: UnsafeCell<T>, state: Cell<State>`. -/
structure RefCell (T : Type) where
  value : RawCell T
  state : Cell State
deriving DecidableEq

/-- RefCell::new from src/ref_cell.rs: state starts Unused. -/
def RefCell.new {T : Type} (value : T) : RefCell T :=
  RefCell.mk (RawCell.new value) (Cell.new State.Unused)

/-- RefCell::into_inner from src/ref_cell.rs. -/
def RefCell.into_inner {T : Type} (c : RefCell T) : T :=
  RawCell.into_inner c.value

/-- RefCell::try_borrow from src/ref_cell.rs lines 63-81.  The result pair
is (Result<Ref, BorrowError>, the RefCell afterwards); the increment
`n + 1` is usize arithmetic, taken modulo 2^64. -/
def RefCell.try_borrow {T : Type} (c : RefCell T) :
    Except BorrowError (Ref T) × RefCell T :=
  match Cell.get c.state with
  | State.Unused =>
      (Except.ok (Ref.new (RawCell.get c.value)),
        RefCell.mk c.value (Cell.set c.state (State.HasReaders 1)))
  | State.HasReaders n =>
      (Except.ok (Ref.new (RawCell.get c.value)),
        RefCell.mk c.value (Cell.set c.state (State.HasReaders ((n + 1) % USIZE))))
  | State.HasWriter => (Except.error BorrowError.mk, c)

/-- RefCell::try_borrow_mut from src/ref_cell.rs lines 83-95. -/
def RefCell.try_borrow_mut {T : Type} (c : RefCell T) :
    Except BorrowMutError (RefMut T) × RefCell T :=
  match Cell.get c.state with
  | State.Unused =>
      (Except.ok (RefMut.new (RawCell.get c.value)),
        RefCell.mk c.value (Cell.set c.state State.HasWriter))
  | State.HasReaders _ => (Except.error BorrowMutError.mk, c)
  | State.HasWriter => (Except.error BorrowMutError.mk, c)

/-- Debug output of a Ref (src/refs.rs lines 44-48), with `fmt` standing
for the Debug formatting of the underlying value. -/
def Ref.debugFmt {T : Type} (fmt : T → String) (r : Ref T) : String :=
  "Ref \x7b value: " ++ fmt r.value ++ " \x7d"

/-- Model of `impl Debug for RefCell` from src/ref_cell.rs lines 102-124: calls
try_borrow; on Ok prints the value through the transient guard which is
dropped before returning, on Err prints the `<borrowed>` placeholder.
The pair is (formatted string, the RefCell after the call), `none` if the
transient guard's drop were to hit `unreachable!`. -/
def RefCell.debugFmt {T : Type} (fmt : T → String) (c : RefCell T) :
    String × Option (RefCell T) :=
  match RefCell.try_borrow c with
  | (Except.ok borrow, c2) =>
      ("RefCell \x7b value: " ++ Ref.debugFmt fmt borrow ++ " \x7d",
        (Ref.drop (Cell.get c2.state)).map
          (fun st => RefCell.mk c2.value (Cell.set c2.state st)))
  | (Except.error _, c2) =>
      ("RefCell \x7b value: <borrowed> \x7d", some c2)

/-! ## Trace semantics for the live-guard bookkeeping -/

/-- One operation a client can perform on a tracker: the two fallible
borrow operations, and dropping a live read or write guard. -/
inductive Op where
  | tryBorrow : Op
  | tryBorrowMut : Op
  | releaseRead : Op
  | releaseWrite : Op
deriving DecidableEq

/-- A tracker together with the number of currently live read and write
guards (the guards a client holds). -/
structure Config (T : Type) where
  cell : RefCell T
  readers : Nat
  writers : Nat
deriving DecidableEq

/-- The configuration right after RefCell::new: no live guards. -/
def Config.init {T : Type} (v : T) : Config T :=
  Config.mk (RefCell.new v) 0 0

/-- One step of the tracker life cycle.  `none` models either an
impossible client action (releasing a guard that is not live) or a
panic in a guard's Drop impl. -/
def Config.step {T : Type} (cfg : Config T) : Op → Option (Config T)
  | Op.tryBorrow =>
      match RefCell.try_borrow cfg.cell with
      | (Except.ok _, c2) => some (Config.mk c2 (cfg.readers + 1) cfg.writers)
      | (Except.error _, c2) => some (Config.mk c2 cfg.readers cfg.writers)
  | Op.tryBorrowMut =>
      match RefCell.try_borrow_mut cfg.cell with
      | (Except.ok _, c2) => some (Config.mk c2 cfg.readers (cfg.writers + 1))
      | (Except.error _, c2) => some (Config.mk c2 cfg.readers cfg.writers)
  | Op.releaseRead =>
      match cfg.readers with
      | 0 => none
      | rr + 1 =>
          (Ref.drop (Cell.get cfg.cell.state)).map
            (fun st =>
              Config.mk (RefCell.mk cfg.cell.value (Cell.set cfg.cell.state st))
                rr cfg.writers)
  | Op.releaseWrite =>
      match cfg.writers with
      | 0 => none
      | ww + 1 =>
          (RefMut.drop (Cell.get cfg.cell.state)).map
            (fun st =>
              Config.mk (RefCell.mk cfg.cell.value (Cell.set cfg.cell.state st))
                cfg.readers ww)

/-- Run a sequence of operations; `none` as soon as a step is impossible
or panics. -/
def Config.run {T : Type} (cfg : Config T) : List Op → Option (Config T)
  | [] => some cfg
  | op :: ops =>
      match Config.step cfg op with
      | some cfg2 => Config.run cfg2 ops
      | none => none

/-- The stored BorrowState agrees with the live guard counts: Unused iff
zero guards, HasReaders(n) (n ≥ 1) iff exactly n live read guards,
HasWriter iff exactly one live write guard. -/
def consistent {T : Type} (cfg : Config T) : Prop :=
  (Cell.get cfg.cell.state = State.Unused ↔ cfg.readers = 0 ∧ cfg.writers = 0) ∧
  (∀ n, 1 ≤ n → (Cell.get cfg.cell.state = State.HasReaders n ↔ cfg.readers = n)) ∧
  (Cell.get cfg.cell.state = State.HasWriter ↔ cfg.writers = 1)

/-! ## Claims C7 and C8 -/

/-- C7: Cell::take on a cell holding X returns X and leaves the default
value; a second take returns the default; Cell::replace(Y) on a cell
holding X returns X and leaves the cell holding Y. -/
theorem claim_C7 (T : Type) [Inhabited T] (x y : T) :
    Cell.take (Cell.new x) = (x, Cell.new (default : T)) ∧
    Cell.take (Cell.take (Cell.new x)).2 = ((default : T), Cell.new (default : T)) ∧
    Cell.replace (Cell.new x) y = (x, Cell.new y) :=
  ⟨rfl, rfl, rfl⟩

/-- C8: into_inner after new returns exactly the stored value. -/
theorem claim_C8 (T : Type) (v : T) :
    RefCell.into_inner (RefCell.new v) = v :=
  rfl

/-! ## Claims C2 and C3: the borrow acquisition protocol -/

/-- C2 (amended): try_borrow by case on the state: Unused sets
HasReaders(1) and returns a read guard; HasReaders(n) sets
HasReaders(n+1) and returns a read guard as long as n + 1 < 2^64, while
HasReaders(2^64 - 1) wraps the count and sets HasReaders(0); HasWriter
fails with BorrowError and leaves the cell untouched. -/
theorem claim_C2 (T : Type) (c : RefCell T) :
    (Cell.get c.state = State.Unused →
      RefCell.try_borrow c =
        (Except.ok (Ref.new (RawCell.get c.value)),
          RefCell.mk c.value (Cell.set c.state (State.HasReaders 1)))) ∧
    (∀ n, n + 1 < USIZE → Cell.get c.state = State.HasReaders n →
      RefCell.try_borrow c =
        (Except.ok (Ref.new (RawCell.get c.value)),
          RefCell.mk c.value (Cell.set c.state (State.HasReaders (n + 1))))) ∧
    (Cell.get c.state = State.HasReaders (USIZE - 1) →
      RefCell.try_borrow c =
        (Except.ok (Ref.new (RawCell.get c.value)),
          RefCell.mk c.value (Cell.set c.state (State.HasReaders 0)))) ∧
    (Cell.get c.state = State.HasWriter →
      RefCell.try_borrow c = (Except.error BorrowError.mk, c)) := by
  refine ⟨?_, ?_, ?_, ?_⟩
  · intro h
    simp [RefCell.try_borrow, h]
  · intro n hn h
    have hmod : (n + 1) % USIZE = n + 1 := Nat.mod_eq_of_lt hn
    simp [RefCell.try_borrow, h, hmod]
  · intro h
    have hmod : (USIZE - 1 + 1) % USIZE = 0 := by simp [USIZE]
    simp [RefCell.try_borrow, h, hmod]
  · intro h
    simp [RefCell.try_borrow, h]

/-- Witness for C2 at a concrete tracker in the Unused state. -/
theorem claim_C2_w :
    RefCell.try_borrow (RefCell.new (42 : Nat)) =
      (Except.ok (Ref.new 42),
        RefCell.mk (RawCell.new 42) (Cell.new (State.HasReaders 1))) := by
  have h := (claim_C2 Nat (RefCell.new 42)).1 rfl
  exact h

/-- Counterexample for C2 as stated: at HasReaders(2^64 - 1) the new
state is HasReaders(0), not HasReaders((2^64 - 1) + 1). -/
theorem claim_C2_cex :
    RefCell.try_borrow
        (RefCell.mk (RawCell.new (42 : Nat)) (Cell.new (State.HasReaders (USIZE - 1)))) =
      (Except.ok (Ref.new 42),
        RefCell.mk (RawCell.new 42) (Cell.new (State.HasReaders 0))) ∧
    State.HasReaders 0 ≠ State.HasReaders (USIZE - 1 + 1) := by
  constructor
  · rfl
  · decide

/-- C3: try_borrow_mut succeeds exactly from Unused, setting HasWriter
and returning a write guard; from HasReaders(_) or HasWriter it fails
with BorrowMutError and leaves the tracker unchanged. -/
theorem claim_C3 (T : Type) (c : RefCell T) :
    ((∃ g c2, RefCell.try_borrow_mut c = (Except.ok g, c2)) ↔
      Cell.get c.state = State.Unused) ∧
    (Cell.get c.state = State.Unused →
      RefCell.try_borrow_mut c =
        (Except.ok (RefMut.new (RawCell.get c.value)),
          RefCell.mk c.value (Cell.set c.state State.HasWriter))) ∧
    (Cell.get c.state ≠ State.Unused →
      RefCell.try_borrow_mut c = (Except.error BorrowMutError.mk, c)) := by
  refine ⟨?_, ?_, ?_⟩
  · constructor
    · rintro ⟨g, c2, hg⟩
      rcases hs : Cell.get c.state with _ | n | _
      · rfl
      · simp [RefCell.try_borrow_mut, hs] at hg
      · simp [RefCell.try_borrow_mut, hs] at hg
    · intro h
      refine ⟨RefMut.new (RawCell.get c.value),
        RefCell.mk c.value (Cell.set c.state State.HasWriter), ?_⟩
      simp [RefCell.try_borrow_mut, h]
  · intro h
    simp [RefCell.try_borrow_mut, h]
  · intro h
    rcases hs : Cell.get c.state with _ | n | _
    · exact absurd hs h
    · simp [RefCell.try_borrow_mut, hs]
    · simp [RefCell.try_borrow_mut, hs]

/-- Witness for C3: concrete success from Unused and failure from
HasReaders(1). -/
theorem claim_C3_w :
    RefCell.try_borrow_mut (RefCell.new (42 : Nat)) =
      (Except.ok (RefMut.new 42),
        RefCell.mk (RawCell.new 42) (Cell.new State.HasWriter)) ∧
    RefCell.try_borrow_mut
        (RefCell.mk (RawCell.new (42 : Nat)) (Cell.new (State.HasReaders 1))) =
      (Except.error BorrowMutError.mk,
        RefCell.mk (RawCell.new 42) (Cell.new (State.HasReaders 1))) := by
  constructor
  · exact (claim_C3 Nat (RefCell.new 42)).2.1 rfl
  · exact
      (claim_C3 Nat
        (RefCell.mk (RawCell.new 42) (Cell.new (State.HasReaders 1)))).2.2
        (by decide)

/-! ## Claims C4 and C5: guard release -/

/-- C4 (amended): releasing a read guard at HasReaders(n) with
1 ≤ n < 2^64 decrements the count, resetting to Unused when n = 1;
at Unused or HasWriter the release panics (`unreachable!`); at the
ill-formed state HasReaders(0) the code does NOT panic: the usize
subtraction wraps and it silently stores HasReaders(2^64 - 1). -/
theorem claim_C4 (s : State) :
    (∀ n, 1 ≤ n → n < USIZE → s = State.HasReaders n →
      Ref.drop s = some (if n = 1 then State.Unused else State.HasReaders (n - 1))) ∧
    ((s = State.Unused ∨ s = State.HasWriter) → Ref.drop s = none) ∧
    (s = State.HasReaders 0 →
      Ref.drop s = some (State.HasReaders (USIZE - 1))) := by
  refine ⟨?_, ?_, ?_⟩
  · rintro n h1 hlt rfl
    by_cases hn : n = 1
    · simp [Ref.drop, hn]
    · have hmod : (n + USIZE - 1) % USIZE = n - 1 := by
        simp only [USIZE] at hlt ⊢
        omega
      simp [Ref.drop, hn, hmod]
  · rintro (rfl | rfl) <;> rfl
  · rintro rfl
    have hmod : (0 + USIZE - 1) % USIZE = USIZE - 1 := by
      simp only [USIZE]
    simp [Ref.drop, hmod]

/-- Witness for C4: concrete decrement HasReaders(2) to HasReaders(1)
and reset HasReaders(1) to Unused. -/
theorem claim_C4_w :
    Ref.drop (State.HasReaders 2) = some (State.HasReaders 1) ∧
    Ref.drop (State.HasReaders 1) = some State.Unused := by
  constructor
  · have h := (claim_C4 (State.HasReaders 2)).1 2 (by decide) (by decide) rfl
    simpa using h
  · have h := (claim_C4 (State.HasReaders 1)).1 1 (by decide) (by decide) rfl
    simpa using h

/-- Counterexample for C4 as stated: at HasReaders(0), which is not
HasReaders(n) with n ≥ 1, the release is not fatal; the code silently
continues with HasReaders(2^64 - 1). -/
theorem claim_C4_cex :
    Ref.drop (State.HasReaders 0) = some (State.HasReaders (USIZE - 1)) ∧
    Ref.drop (State.HasReaders 0) ≠ none := by
  constructor
  · decide
  · decide

/-- C5: releasing a write guard at HasWriter resets to Unused; at any
other state the release panics (`unreachable!`). -/
theorem claim_C5 (s : State) :
    (s = State.HasWriter → RefMut.drop s = some State.Unused) ∧
    (s ≠ State.HasWriter → RefMut.drop s = none) := by
  constructor
  · rintro rfl
    rfl
  · intro h
    rcases s with _ | n | _
    · rfl
    · rfl
    · exact absurd rfl h

/-- Witness for C5: concrete release at HasWriter and panic at Unused. -/
theorem claim_C5_w :
    RefMut.drop State.HasWriter = some State.Unused ∧
    RefMut.drop State.Unused = none := by
  constructor
  · exact (claim_C5 State.HasWriter).1 rfl
  · exact (claim_C5 State.Unused).2 (by decide)

/-! ## Claims C6 and C9 -/

/-- C6: the Debug presentation shows only the `<borrowed>` placeholder
when the state is HasWriter (value not revealed), and shows the current
value when the state is Unused or HasReaders(_). -/
theorem claim_C6 (T : Type) (fmt : T → String) (c : RefCell T) :
    (Cell.get c.state = State.HasWriter →
      (RefCell.debugFmt fmt c).1 = "RefCell \x7b value: <borrowed> \x7d") ∧
    (Cell.get c.state ≠ State.HasWriter →
      (RefCell.debugFmt fmt c).1 =
        "RefCell \x7b value: " ++
          ("Ref \x7b value: " ++ fmt (RawCell.get c.value) ++ " \x7d") ++ " \x7d") := by
  constructor
  · intro h
    simp [RefCell.debugFmt, RefCell.try_borrow, h]
  · intro h
    rcases hs : Cell.get c.state with _ | n | _
    · simp [RefCell.debugFmt, RefCell.try_borrow, hs, Ref.debugFmt, Ref.new,
        RawCell.get]
    · simp [RefCell.debugFmt, RefCell.try_borrow, hs, Ref.debugFmt, Ref.new,
        RawCell.get]
    · exact absurd hs h

/-- Witness for C6: a write-locked tracker over 42 prints the
placeholder; an unlocked one prints the value. -/
theorem claim_C6_w :
    (RefCell.debugFmt Nat.repr
        (RefCell.mk (RawCell.new 42) (Cell.new State.HasWriter))).1 =
      "RefCell \x7b value: <borrowed> \x7d" ∧
    (RefCell.debugFmt Nat.repr (RefCell.new (42 : Nat))).1 =
      "RefCell \x7b value: " ++
        ("Ref \x7b value: " ++ Nat.repr 42 ++ " \x7d") ++ " \x7d" := by
  constructor
  · exact
      (claim_C6 Nat Nat.repr
        (RefCell.mk (RawCell.new 42) (Cell.new State.HasWriter))).1 rfl
  · exact (claim_C6 Nat Nat.repr (RefCell.new 42)).2 (by decide)

/-- C9: the reader count increment is unchecked usize arithmetic:
try_borrow at HasReaders(usize::MAX) still succeeds and, wrapping
modulo 2^64, stores HasReaders(0). -/
theorem claim_C9 :
    RefCell.try_borrow
        (RefCell.mk (RawCell.new (42 : Nat)) (Cell.new (State.HasReaders (USIZE - 1)))) =
      (Except.ok (Ref.new 42),
        RefCell.mk (RawCell.new 42) (Cell.new (State.HasReaders 0))) := by
  rfl

/-! ## Claim C10: Debug formatting is state-preserving off the writer state -/

/-- Dropping the transient read guard created by try_borrow from
HasReaders(n) with 1 ≤ n < 2^64 restores exactly HasReaders(n). -/
lemma drop_after_borrow (n : Nat) (hn1 : 1 ≤ n) (hn2 : n < USIZE) :
    Ref.drop (State.HasReaders ((n + 1) % USIZE)) = some (State.HasReaders n) := by
  by_cases h1 : (n + 1) % USIZE = 1
  · exfalso
    simp only [USIZE] at h1 hn2
    omega
  · have hmod : ((n + 1) % USIZE + USIZE - 1) % USIZE = n := by
      simp only [USIZE] at hn2 ⊢
      omega
    simp [Ref.drop, h1, hmod]

/-- C10 (amended): formatting a tracker whose state is Unused or
HasReaders(n) with n ≥ 1 acquires a transient read guard whose release
restores the original state, and the tracker after the Debug call equals
the tracker before it.  (At the ill-formed state HasReaders(0) the
formatter instead resets the state to Unused.) -/
theorem claim_C10 (T : Type) (fmt : T → String) (c : RefCell T) :
    (Cell.get c.state = State.Unused ∨
      (∃ n, 1 ≤ n ∧ n < USIZE ∧ Cell.get c.state = State.HasReaders n)) →
    (∃ g c2, RefCell.try_borrow c = (Except.ok g, c2) ∧
      Ref.drop (Cell.get c2.state) = some (Cell.get c.state)) ∧
    (RefCell.debugFmt fmt c).2 = some c := by
  obtain ⟨⟨v⟩, ⟨⟨s⟩⟩⟩ := c
  rintro (h | ⟨n, hn1, hn2, h⟩)
  · simp only [Cell.get, RawCell.get] at h
    subst h
    exact ⟨⟨Ref.new v, _, rfl, rfl⟩, rfl⟩
  · simp only [Cell.get, RawCell.get] at h
    subst h
    have hdrop := drop_after_borrow n hn1 hn2
    constructor
    · exact ⟨Ref.new v, _, rfl, hdrop⟩
    · simp only [RefCell.debugFmt, RefCell.try_borrow, Cell.get, RawCell.get,
        Cell.set, RawCell.new, hdrop, Option.map_some']

/-- Witness for C10: Debug on an unborrowed tracker over 7 returns it to
the identical configuration. -/
theorem claim_C10_w :
    (RefCell.debugFmt Nat.repr (RefCell.new (7 : Nat))).2 =
      some (RefCell.new 7) :=
  (claim_C10 Nat Nat.repr (RefCell.new 7) (Or.inl rfl)).2

/-- Counterexample for C10 as stated: at the non-writer state
HasReaders(0) the Debug call does not leave the state as it was; it
resets it to Unused. -/
theorem claim_C10_cex :
    (RefCell.debugFmt Nat.repr
        (RefCell.mk (RawCell.new (42 : Nat)) (Cell.new (State.HasReaders 0)))).2 =
      some (RefCell.mk (RawCell.new 42) (Cell.new State.Unused)) ∧
    RefCell.mk (RawCell.new (42 : Nat)) (Cell.new State.Unused) ≠
      RefCell.mk (RawCell.new 42) (Cell.new (State.HasReaders 0)) := by
  constructor
  · rfl
  · decide

/-! ## Claim C1: the state/live-guard correspondence along every trace -/

/-- Reachability invariant on (state, live readers, live writers): at
most one writer; with a live writer the state is HasWriter and the
reader count is a multiple of 2^64; with no writer the state is either
Unused (reader count a multiple of 2^64) or HasReaders of the wrapped
reader count. -/
def invSRW (s : State) (r w : Nat) : Prop :=
  w ≤ 1 ∧
  (w = 1 → s = State.HasWriter ∧ r % USIZE = 0) ∧
  (w = 0 →
    (s = State.Unused ∧ r % USIZE = 0) ∨
    (1 ≤ r ∧ s = State.HasReaders (r % USIZE)))

/-- The reachability invariant, read off a configuration. -/
def stateInv {T : Type} (cfg : Config T) : Prop :=
  invSRW (Cell.get cfg.cell.state) cfg.readers cfg.writers

/-- With the invariant, a non-HasWriter state means no live writer. -/
lemma invSRW_no_writer (s : State) (r w : Nat) (h : invSRW s r w)
    (hnw : s ≠ State.HasWriter) : w = 0 := by
  obtain ⟨hw1, hww, _⟩ := h
  rcases Nat.eq_zero_or_pos w with h0 | h0
  · exact h0
  · have h1 : w = 1 := by omega
    exact absurd (hww h1).1 hnw

/-- Building the invariant at a reader state. -/
lemma invSRW_readers (m r : Nat) (hm : m = r % USIZE) (hr : 1 ≤ r) :
    invSRW (State.HasReaders m) r 0 := by
  refine ⟨Nat.zero_le 1, ?_, ?_⟩
  · intro h1
    exact absurd h1 (by decide)
  · intro _
    exact Or.inr ⟨hr, by rw [hm]⟩

/-- Building the invariant at Unused. -/
lemma invSRW_unused (r : Nat) (hr : r % USIZE = 0) : invSRW State.Unused r 0 := by
  refine ⟨Nat.zero_le 1, ?_, ?_⟩
  · intro h1
    exact absurd h1 (by decide)
  · intro _
    exact Or.inl ⟨rfl, hr⟩

/-- Building the invariant at HasWriter. -/
lemma invSRW_writer (r : Nat) (hr : r % USIZE = 0) : invSRW State.HasWriter r 1 := by
  refine ⟨Nat.le_refl 1, ?_, ?_⟩
  · intro _
    exact ⟨rfl, hr⟩
  · intro h0
    exact absurd h0 (by decide)

/-- The invariant holds right after RefCell::new. -/
lemma stateInv_init {T : Type} (v : T) : stateInv (Config.init v) :=
  invSRW_unused 0 (by decide)

/-- Every step of the tracker life cycle preserves the invariant. -/
lemma stateInv_step {T : Type} (cfg cfg2 : Config T) (op : Op)
    (h : stateInv cfg) (hs : Config.step cfg op = some cfg2) : stateInv cfg2 := by
  obtain ⟨⟨vr, ⟨⟨s⟩⟩⟩, r, w⟩ := cfg
  have hinv : invSRW s r w := h
  cases op with
  | tryBorrow =>
      cases s with
      | Unused =>
          have hw0 : w = 0 := invSRW_no_writer _ _ _ hinv (fun hc => State.noConfusion hc)
          have hr0 : r % USIZE = 0 := by
            rcases hinv.2.2 hw0 with ⟨_, h2⟩ | ⟨_, h2⟩
            · exact h2
            · exact State.noConfusion h2
          subst hw0
          have hs2 : some (Config.mk (RefCell.mk vr (Cell.new (State.HasReaders 1)))
              (r + 1) 0) = some cfg2 := hs
          obtain rfl := Option.some.inj hs2
          show invSRW (State.HasReaders 1) (r + 1) 0
          refine invSRW_readers _ _ ?_ (Nat.le_add_left 1 r)
          simp only [USIZE] at hr0 ⊢
          omega
      | HasReaders n =>
          have hw0 : w = 0 := invSRW_no_writer _ _ _ hinv (fun hc => State.noConfusion hc)
          have hfact : 1 ≤ r ∧ n = r % USIZE := by
            rcases hinv.2.2 hw0 with ⟨h2, _⟩ | ⟨hr1, h2⟩
            · exact State.noConfusion h2
            · refine ⟨hr1, ?_⟩
              injection h2
          subst hw0
          have hs2 : some (Config.mk
              (RefCell.mk vr (Cell.new (State.HasReaders ((n + 1) % USIZE))))
              (r + 1) 0) = some cfg2 := hs
          obtain rfl := Option.some.inj hs2
          show invSRW (State.HasReaders ((n + 1) % USIZE)) (r + 1) 0
          obtain ⟨hr1, hn⟩ := hfact
          refine invSRW_readers _ _ ?_ (Nat.le_add_left 1 r)
          simp only [USIZE] at hn ⊢
          omega
      | HasWriter =>
          have hs2 : some (Config.mk (RefCell.mk vr (Cell.mk (RawCell.mk State.HasWriter)))
              r w) = some cfg2 := hs
          obtain rfl := Option.some.inj hs2
          exact hinv
  | tryBorrowMut =>
      cases s with
      | Unused =>
          have hw0 : w = 0 := invSRW_no_writer _ _ _ hinv (fun hc => State.noConfusion hc)
          have hr0 : r % USIZE = 0 := by
            rcases hinv.2.2 hw0 with ⟨_, h2⟩ | ⟨_, h2⟩
            · exact h2
            · exact State.noConfusion h2
          subst hw0
          have hs2 : some (Config.mk (RefCell.mk vr (Cell.new State.HasWriter))
              r 1) = some cfg2 := hs
          obtain rfl := Option.some.inj hs2
          show invSRW State.HasWriter r 1
          exact invSRW_writer r hr0
      | HasReaders n =>
          have hs2 : some (Config.mk
              (RefCell.mk vr (Cell.mk (RawCell.mk (State.HasReaders n)))) r w) =
              some cfg2 := hs
          obtain rfl := Option.some.inj hs2
          exact hinv
      | HasWriter =>
          have hs2 : some (Config.mk (RefCell.mk vr (Cell.mk (RawCell.mk State.HasWriter)))
              r w) = some cfg2 := hs
          obtain rfl := Option.some.inj hs2
          exact hinv
  | releaseRead =>
      cases r with
      | zero => exact Option.noConfusion hs
      | succ rr =>
          cases s with
          | Unused => exact Option.noConfusion hs
          | HasWriter => exact Option.noConfusion hs
          | HasReaders n =>
              have hw0 : w = 0 :=
                invSRW_no_writer _ _ _ hinv (fun hc => State.noConfusion hc)
              have hfact : n = (rr + 1) % USIZE := by
                rcases hinv.2.2 hw0 with ⟨h2, _⟩ | ⟨_, h2⟩
                · exact State.noConfusion h2
                · injection h2
              subst hw0
              by_cases hn1 : n = 1
              · subst hn1
                have hs2 : some (Config.mk (RefCell.mk vr (Cell.new State.Unused))
                    rr 0) = some cfg2 := hs
                obtain rfl := Option.some.inj hs2
                show invSRW State.Unused rr 0
                refine invSRW_unused rr ?_
                simp only [USIZE] at hfact ⊢
                omega
              · have hd : Ref.drop (State.HasReaders n) =
                    some (State.HasReaders ((n + USIZE - 1) % USIZE)) := by
                  simp [Ref.drop, hn1]
                have hs2 : (Ref.drop (State.HasReaders n)).map
                    (fun st => Config.mk (RefCell.mk vr (Cell.new st)) rr 0) =
                    some cfg2 := hs
                rw [hd] at hs2
                simp only [Option.map_some'] at hs2
                obtain rfl := Option.some.inj hs2
                show invSRW (State.HasReaders ((n + USIZE - 1) % USIZE)) rr 0
                refine invSRW_readers _ _ ?_ ?_
                · simp only [USIZE] at hfact ⊢
                  omega
                · simp only [USIZE] at hfact
                  omega
  | releaseWrite =>
      cases w with
      | zero => exact Option.noConfusion hs
      | succ ww =>
          cases s with
          | Unused => exact Option.noConfusion hs
          | HasReaders n => exact Option.noConfusion hs
          | HasWriter =>
              have hww0 : ww = 0 := by
                have hw1 := hinv.1
                omega
              subst hww0
              have hr0 : r % USIZE = 0 := (hinv.2.1 rfl).2
              have hs2 : some (Config.mk (RefCell.mk vr (Cell.new State.Unused))
                  r 0) = some cfg2 := hs
              obtain rfl := Option.some.inj hs2
              show invSRW State.Unused r 0
              exact invSRW_unused r hr0

/-- Running any list of operations preserves the invariant. -/
lemma stateInv_run {T : Type} (ops : List Op) (cfg cfg2 : Config T)
    (h : stateInv cfg) (hr : Config.run cfg ops = some cfg2) : stateInv cfg2 := by
  induction ops generalizing cfg with
  | nil =>
      have hr2 : some cfg = some cfg2 := hr
      obtain rfl := Option.some.inj hr2
      exact h
  | cons op ops ih =>
      cases hstep : Config.step cfg op with
      | none =>
          rw [Config.run, hstep] at hr
          exact Option.noConfusion hr
      | some cfgm =>
          rw [Config.run, hstep] at hr
          exact ih cfgm (stateInv_step cfg cfgm op h hstep) hr

/-- The invariant plus a reader count below 2^64 yields the exact
state/live-guard correspondence. -/
lemma stateInv_consistent {T : Type} (cfg : Config T) (h : stateInv cfg)
    (hlt : cfg.readers < USIZE) : consistent cfg := by
  obtain ⟨hw1, hww, hwr⟩ := h
  rcases Nat.eq_zero_or_pos cfg.writers with hw0 | hwpos
  · rcases hwr hw0 with ⟨hs, hr0⟩ | ⟨hr1, hs⟩
    · have hr : cfg.readers = 0 := by
        simp only [USIZE] at hr0 hlt
        omega
      refine ⟨⟨fun _ => ⟨hr, hw0⟩, fun _ => hs⟩, ?_, ?_⟩
      · intro n hn
        constructor
        · intro hsn
          rw [hs] at hsn
          exact State.noConfusion hsn
        · intro hrn
          omega
      · constructor
        · intro hsw
          rw [hs] at hsw
          exact State.noConfusion hsw
        · intro hw1'
          omega
    · have hrm : cfg.readers % USIZE = cfg.readers := Nat.mod_eq_of_lt hlt
      rw [hrm] at hs
      refine ⟨?_, ?_, ?_⟩
      · constructor
        · intro h0
          rw [hs] at h0
          exact State.noConfusion h0
        · rintro ⟨h0, _⟩
          omega
      · intro n hn
        constructor
        · intro hsn
          rw [hs] at hsn
          injection hsn
        · intro hrn
          rw [hs, hrn]
      · constructor
        · intro hsw
          rw [hs] at hsw
          exact State.noConfusion hsw
        · intro hw1'
          omega
  · have hw1' : cfg.writers = 1 := by omega
    obtain ⟨hs, hr0⟩ := hww hw1'
    have hr : cfg.readers = 0 := by
      simp only [USIZE] at hr0 hlt
      omega
    refine ⟨?_, ?_, ?_⟩
    · constructor
      · intro h0
        rw [hs] at h0
        exact State.noConfusion h0
      · rintro ⟨_, h0⟩
        omega
    · intro n hn
      constructor
      · intro hsn
        rw [hs] at hsn
        exact State.noConfusion hsn
      · intro hrn
        omega
    · exact ⟨fun _ => hw1', fun _ => hs⟩

/-- C1 (amended): starting from a tracker created by new, along every
sequence of try_borrow / try_borrow_mut / guard-release operations that
does not panic, as long as fewer than 2^64 read guards are live the
stored BorrowState is Unused exactly when zero guards are live,
HasReaders(n) (n ≥ 1) exactly when exactly n read guards are live, and
HasWriter exactly when exactly one write guard is live.  (With 2^64 or
more live read guards the wrapped usize counter misrepresents the live
count.) -/
theorem claim_C1 (T : Type) (v : T) (ops : List Op) (cfg : Config T)
    (h : Config.run (Config.init v) ops = some cfg)
    (hlt : cfg.readers < USIZE) : consistent cfg :=
  stateInv_consistent cfg (stateInv_run ops (Config.init v) cfg (stateInv_init v) h) hlt

/-- Witness for C1: one successful try_borrow from new yields the
consistent configuration (HasReaders 1, one live read guard). -/
theorem claim_C1_w :
    Config.run (Config.init (42 : Nat)) [Op.tryBorrow] =
      some (Config.mk (RefCell.mk (RawCell.new 42) (Cell.new (State.HasReaders 1))) 1 0) ∧
    consistent
      (Config.mk (RefCell.mk (RawCell.new (42 : Nat)) (Cell.new (State.HasReaders 1))) 1 0) := by
  constructor
  · rfl
  · exact claim_C1 Nat 42 [Op.tryBorrow] _ rfl (by decide)

/-- Running k successful try_borrow operations from HasReaders(n) adds k
to the reader count and stores the wrapped count. -/
lemma run_replicate_tryBorrow (k : Nat) :
    ∀ n r : Nat, n < USIZE →
      Config.run
          (Config.mk (RefCell.mk (RawCell.new (42 : Nat))
            (Cell.new (State.HasReaders n))) r 0)
          (List.replicate k Op.tryBorrow) =
        some (Config.mk (RefCell.mk (RawCell.new 42)
          (Cell.new (State.HasReaders ((n + k) % USIZE)))) (r + k) 0) := by
  induction k with
  | zero =>
      intro n r hn
      simp [Config.run, Nat.mod_eq_of_lt hn]
  | succ k ih =>
      intro n r hn
      rw [List.replicate_succ]
      have hstep :
          Config.step
              (Config.mk (RefCell.mk (RawCell.new (42 : Nat))
                (Cell.new (State.HasReaders n))) r 0) Op.tryBorrow =
            some (Config.mk (RefCell.mk (RawCell.new 42)
              (Cell.new (State.HasReaders ((n + 1) % USIZE)))) (r + 1) 0) := rfl
      rw [Config.run, hstep]
      have ihx := ih ((n + 1) % USIZE) (r + 1) (Nat.mod_lt _ (by decide))
      show Config.run
          (Config.mk (RefCell.mk (RawCell.new 42)
            (Cell.new (State.HasReaders ((n + 1) % USIZE)))) (r + 1) 0)
          (List.replicate k Op.tryBorrow) = _
      rw [ihx]
      have e1 : ((n + 1) % USIZE + k) % USIZE = (n + (k + 1)) % USIZE := by
        simp only [USIZE]
        omega
      have e2 : r + 1 + k = r + (k + 1) := by omega
      rw [e1, e2]

/-- Counterexample for C1 as stated: after 2^64 successful try_borrow
operations there are 2^64 live read guards but the stored state is
HasReaders(0), so the correspondence fails. -/
theorem claim_C1_cex :
    Config.run (Config.init (42 : Nat)) (List.replicate USIZE Op.tryBorrow) =
      some (Config.mk (RefCell.mk (RawCell.new 42)
        (Cell.new (State.HasReaders 0))) USIZE 0) ∧
    ¬ consistent (Config.mk (RefCell.mk (RawCell.new (42 : Nat))
      (Cell.new (State.HasReaders 0))) USIZE 0) := by
  constructor
  · have hsz : USIZE = 18446744073709551615 + 1 := by simp [USIZE]
    rw [hsz, List.replicate_succ]
    have hstep :
        Config.step (Config.init (42 : Nat)) Op.tryBorrow =
          some (Config.mk (RefCell.mk (RawCell.new 42)
            (Cell.new (State.HasReaders 1))) 1 0) := rfl
    rw [Config.run, hstep]
    have ihx := run_replicate_tryBorrow 18446744073709551615 1 1 (by decide)
    show Config.run
        (Config.mk (RefCell.mk (RawCell.new 42)
          (Cell.new (State.HasReaders 1))) 1 0)
        (List.replicate 18446744073709551615 Op.tryBorrow) = _
    rw [ihx]
    norm_num [USIZE]
  · intro hcon
    have h2 := (hcon.2.1 USIZE (by decide)).mpr rfl
    have h3 : State.HasReaders 0 = State.HasReaders USIZE := h2
    have h4 : (0 : Nat) = USIZE := by injection h3
    simp only [USIZE] at h4
    omega

end Rsplay
